import Mathlib

/-!
Verification of the flexural-design engine of `analisis_estructural.py`
(with its constants module `constantes.py`).

Shallow embedding conventions:
* Python floats are modelled as exact rationals (`ℚ`); the single irrational
  operation of the engine, `np.sqrt(self.fc)` in `_calcular_simple`, is
  modelled by `Real.sqrt`, so the final tension-steel area lives in `ℝ`.
* The mutable result fields (`area_acero_traccion`, `area_acero_compresion`,
  `mensaje`) that the Python class stores on `self` are modelled as an explicit
  result record `Resultado` returned by `calcular_as`.
* `raise ValueError(...)` / an uncaught `AttributeError` are modelled as the
  `.error` constructor of `Except String _`.
-/

namespace Estructural

/-! ### constantes.py -/

/-- `KG_CM2_A_MPA = 0.0980665` (constantes.py). -/
def KG_CM2_A_MPA : ℚ := 0.0980665

/-- `TON_A_N = 9806.65` (constantes.py). -/
def TON_A_N : ℚ := 9806.65

/-- `M_A_MM = 1000.0` (constantes.py). -/
def M_A_MM : ℚ := 1000

/-- `CM_A_MM = 10.0` (constantes.py). -/
def CM_A_MM : ℚ := 10

/-- `TON_M_A_N_MM = TON_A_N * M_A_MM` (constantes.py). -/
def TON_M_A_N_MM : ℚ := TON_A_N * M_A_MM

/-- `MODULO_ELASTICIDAD_ACERO = 200000.0` MPa (constantes.py). -/
def MODULO_ELASTICIDAD_ACERO : ℚ := 200000

/-- `PHI_FLEXION = 0.90` (constantes.py). -/
def PHI_FLEXION : ℚ := 0.90

/-- `RECUBRIMIENTO_PROMEDIO = 60.0` mm (constantes.py). -/
def RECUBRIMIENTO_PROMEDIO : ℚ := 60

/-- `RECUBRIMIENTO_VIGA = 40.0` mm (constantes.py). -/
def RECUBRIMIENTO_VIGA : ℚ := 40

/-- `DIAMETRO_ESTRIBO_DEF = 9.5` mm (constantes.py). -/
def DIAMETRO_ESTRIBO_DEF : ℚ := 9.5

/-- `SEPARACION_MINIMA_CONCRETO = 25.0` mm (constantes.py). -/
def SEPARACION_MINIMA_CONCRETO : ℚ := 25

/-- One entry of the `VARILLAS_INFO` dictionary of constantes.py:
`{"area": ..., "diam": ...}` (mm², mm). -/
structure InfoVarilla where
  area : ℚ
  diam : ℚ
deriving DecidableEq

/-- The `VARILLAS_INFO` dictionary of constantes.py, as a lookup function
returning `none` for keys absent from the dictionary. -/
def VARILLAS_INFO (nombre : String) : Option InfoVarilla :=
  if nombre = "3/8" then some ⟨71, 9.5⟩
  else if nombre = "1/2" then some ⟨129, 12.7⟩
  else if nombre = "5/8" then some ⟨199, 15.9⟩
  else if nombre = "3/4" then some ⟨284, 19.1⟩
  else if nombre = "1" then some ⟨510, 25.4⟩
  else if nombre = "1 3/8" then some ⟨1006, 35.8⟩
  else none

/-- constantes.py never defines an attribute `VARILLAS_ESTANDAR` (the catalog
it defines is `VARILLAS_INFO`), and no other module of the repository assigns
it.  We model the module attribute as an `Option`al association list that is
`none`: accessing it in Python raises `AttributeError`. -/
def VARILLAS_ESTANDAR : Option (List (String × ℚ)) := none

/-! ### The section model (`VigaRectangular.__init__`) -/

/-- The state a `VigaRectangular` holds after `__init__`, internal SI units
(mm, MPa).  `beta1` is determined by `fc` (see `_calcular_beta1`); the
result fields initialised to `0.0` are modelled as outputs of `calcular_as`;
`d_prima` is the constant `RECUBRIMIENTO_PROMEDIO`. -/
structure VigaRectangular where
  base : ℚ
  altura : ℚ
  fc : ℚ
  fy : ℚ
deriving DecidableEq

/-- `VigaRectangular.__init__`: unit conversion from cm and kg/cm² to mm and
MPa.  The source performs no validation whatsoever on its inputs. -/
def mkViga (base_cm altura_cm fc_kg_cm2 fy_kg_cm2 : ℚ) : VigaRectangular :=
  { base := base_cm * CM_A_MM
    altura := altura_cm * CM_A_MM
    fc := fc_kg_cm2 * KG_CM2_A_MPA
    fy := fy_kg_cm2 * KG_CM2_A_MPA }

/-- `VigaRectangular._calcular_beta1`, as a function of the stored `fc`. -/
def _calcular_beta1 (fc : ℚ) : ℚ :=
  if fc ≤ 28 then 0.85
  else if fc ≥ 55 then 0.65
  else 0.85 - 0.05 * (fc - 28) / 7

/-! ### The flexural solver (`calcular_as` and its two branches) -/

/-- The result fields `calcular_as` stores on the object. -/
structure Resultado where
  area_acero_traccion : ℝ
  area_acero_compresion : ℝ
  mensaje : String

/-- The `for _ in range(20)` fixed-point loop of `_calcular_simple`.
`n` is the number of iterations remaining after the current one (the loop is
entered with `n = 19`); `a` is the current compression-block depth.  Each
iteration stores `As`, computes `a_nuevo`, and breaks when
`abs (a_nuevo - a) < 0.1`; the value returned is the `As` of the last
iteration executed. -/
def _calcular_simple_loop (mu phi fy fc base d : ℚ) : ℕ → ℚ → ℚ
  | n, a =>
    let as_t := mu / (phi * fy * (d - a / 2))
    let a_nuevo := as_t * fy / (0.85 * fc * base)
    match n with
    | 0 => as_t
    | n + 1 =>
      if |a_nuevo - a| < 0.1 then as_t
      else _calcular_simple_loop mu phi fy fc base d n a_nuevo

/-- The iterated `As` of `_calcular_simple` (loop seeded with `a = d * 0.2`,
at most 20 iterations), before the minimum-steel clamp. -/
def _calcular_simple_iter (v : VigaRectangular) (mu d phi : ℚ) : ℚ :=
  _calcular_simple_loop mu phi v.fy v.fc v.base d 19 (d * 0.2)

/-- `VigaRectangular._calcular_simple`.  The minimum check of this branch is
`min_as = (0.25 * np.sqrt(self.fc) / self.fy) * self.base * d` followed by
`self.area_acero_traccion = max(self.area_acero_traccion, min_as)`;
`np.sqrt` is modelled by `Real.sqrt`.  `mensaje` is set by the caller. -/
noncomputable def _calcular_simple (v : VigaRectangular) (mu d phi : ℚ) : Resultado :=
  let as_iterado := _calcular_simple_iter v mu d phi
  let min_as : ℝ := (0.25 * Real.sqrt (v.fc : ℝ) / (v.fy : ℝ)) * (v.base : ℝ) * (d : ℝ)
  { area_acero_compresion := 0
    area_acero_traccion := max ((as_iterado : ℚ) : ℝ) min_as
    mensaje := "" }

/-- `VigaRectangular._calcular_doble` (with `self.d_prima =
RECUBRIMIENTO_PROMEDIO`).  `mensaje` is set by the caller. -/
def _calcular_doble (v : VigaRectangular) (mu d phi mn_max_simple c_limite : ℚ) :
    ℚ × ℚ :=
  let mn_requerido := mu / phi
  let mn_extra := mn_requerido - mn_max_simple
  let es_prima := 0.003 * (c_limite - RECUBRIMIENTO_PROMEDIO) / c_limite
  let fs_prima := es_prima * MODULO_ELASTICIDAD_ACERO
  let fs_prima := min fs_prima v.fy
  let area_acero_compresion := mn_extra / (fs_prima * (d - RECUBRIMIENTO_PROMEDIO))
  let as_max_simple := (0.85 * v.fc * v.base * (_calcular_beta1 v.fc * c_limite)) / v.fy
  let as_extra := area_acero_compresion * (fs_prima / v.fy)
  (as_max_simple + as_extra, area_acero_compresion)

/-- `VigaRectangular.calcular_as`: converts the demand to N·mm, computes the
singly-reinforced ceiling, and dispatches on `mu_n_mm <= mu_max_simple`. -/
noncomputable def calcular_as (v : VigaRectangular) (mu_ton_m : ℚ) : Resultado :=
  let mu_n_mm := mu_ton_m * TON_M_A_N_MM
  let d := v.altura - RECUBRIMIENTO_PROMEDIO
  let phi := PHI_FLEXION
  let c_limite := 0.375 * d
  let a_limite := _calcular_beta1 v.fc * c_limite
  let cc_max := 0.85 * v.fc * v.base * a_limite
  let mn_max_simple := cc_max * (d - a_limite / 2)
  let mu_max_simple := phi * mn_max_simple
  if mu_n_mm ≤ mu_max_simple then
    { _calcular_simple v mu_n_mm d phi with
        mensaje := "Diseño OK (Simplemente Reforzado)" }
  else
    let doble := _calcular_doble v mu_n_mm d phi mn_max_simple c_limite
    { area_acero_traccion := (doble.1 : ℝ)
      area_acero_compresion := (doble.2 : ℝ)
      mensaje := "Diseño OK (Doblemente Reforzado)" }

/-! ### The rebar packer (`distribuir_acero`) -/

/-- The `resultado` sub-dictionary built by `distribuir_acero`.  The
zero-demand early return omits the `max_por_capa` key, hence the `Option`. -/
structure ResultadoDistribucion where
  varilla : String
  cantidad : ℤ
  capas : ℕ
  detalle : String
  area_real : ℚ
  max_por_capa : Option ℤ
deriving DecidableEq

/-- The dictionary returned by `distribuir_acero`. -/
structure Respuesta where
  exito : Bool
  mensaje : String
  resultado : ResultadoDistribucion
deriving DecidableEq

/-- Python `int()` on a float: truncation toward zero. -/
def pyInt (q : ℚ) : ℤ := if 0 ≤ q then ⌊q⌋ else ⌈q⌉

/-- `VigaRectangular.distribuir_acero`.  `base` is the stored `self.base`;
`target` is `area_a_cubrir` after the Python default resolution
(`self.area_acero_traccion` when the argument is `None`).
`raise ValueError` is the `.error` constructor. -/
def distribuir_acero (base : ℚ) (nombre_varilla : String) (target : ℚ) :
    Except String Respuesta :=
  if target ≤ 0 then
    .ok { exito := true
          mensaje := "No requiere refuerzo"
          resultado := { varilla := nombre_varilla, cantidad := 0, capas := 0
                         detalle := "Ninguno", area_real := 0, max_por_capa := none } }
  else
    match VARILLAS_INFO nombre_varilla with
    | none => .error ("Varilla " ++ nombre_varilla ++ " no existe")
    | some info_varilla =>
      let db := info_varilla.diam
      let area_b := info_varilla.area
      let num_total : ℤ := ⌈target / area_b⌉
      let b_disponible := base - 2 * RECUBRIMIENTO_VIGA - 2 * DIAMETRO_ESTRIBO_DEF
      let separacion_norma := max SEPARACION_MINIMA_CONCRETO db
      let ancho_ocupado_por_varilla := db + separacion_norma
      let max_por_capa : ℤ :=
        pyInt ((b_disponible + separacion_norma) / ancho_ocupado_por_varilla)
      let respuesta : Respuesta :=
        { exito := true
          mensaje := "OK"
          resultado := { varilla := nombre_varilla, cantidad := num_total, capas := 1
                         detalle := "", area_real := (num_total : ℚ) * area_b
                         max_por_capa := some max_por_capa } }
      if max_por_capa < 2 then
        .ok { respuesta with exito := false, mensaje := "Viga muy angosta" }
      else if num_total ≤ max_por_capa then
        .ok { respuesta with
                resultado := { respuesta.resultado with
                                 detalle := "1 capa de " ++ toString num_total } }
      else
        let capa1 := max_por_capa
        let capa2 := num_total - max_por_capa
        let respuesta2 : Respuesta :=
          { respuesta with
              resultado := { respuesta.resultado with
                               capas := 2
                               detalle := "2 capas: " ++ toString capa1 ++ " + " ++
                                 toString capa2 } }
        if capa2 > max_por_capa then
          .ok { respuesta2 with
                  exito := false, mensaje := "Congestión: Se requieren >2 capas" }
        else
          .ok respuesta2

/-! ### `seleccionar_varillas` -/

/-- The two shapes `seleccionar_varillas` can return normally: the early
error string, or the result dictionary documented in the source. -/
inductive SelRetorno where
  | errStr (s : String)
  | dict (descripcion : String) (area_req area_provista ratio_seguridad : ℚ)
deriving DecidableEq

/-- Python `round(q, d)`: modelled as round-half-up at `d` decimal digits.
(Python uses round-half-to-even; the two agree except at exact decimal ties.
The only use is on the unreachable path of `seleccionar_varillas`.) -/
def pyRound (d : ℕ) (q : ℚ) : ℚ := (round (q * 10 ^ d) : ℤ) / 10 ^ d

/-- `VigaRectangular.seleccionar_varillas`.  `area_acero` is the stored
`self.area_acero` (alias of `self.area_acero_traccion`).  The membership test
`nombre_varilla not in const.VARILLAS_ESTANDAR` reads the module attribute
`VARILLAS_ESTANDAR`, which constantes.py never defines: in Python this raises
`AttributeError` before anything else on that path runs.  The `some` branch
below is the translation of the remaining source lines, reachable only if the
attribute existed. -/
def seleccionar_varillas (area_acero : ℚ) (nombre_varilla : String) :
    Except String SelRetorno :=
  if area_acero = 0 then
    .ok (.errStr "Error: Primero debes calcular el As (ejecuta calcular_as)")
  else
    match VARILLAS_ESTANDAR with
    | none =>
        .error "AttributeError: module constantes has no attribute VARILLAS_ESTANDAR"
    | some varillas_estandar =>
        match varillas_estandar.lookup nombre_varilla with
        | none =>
            .ok (.errStr ("Error: Varilla " ++ nombre_varilla ++
              " no disponible en catálogo."))
        | some area_unitaria =>
            let numero_entero : ℤ := ⌈area_acero / area_unitaria⌉
            let refuerzo_propuesto :=
              toString numero_entero ++ " varillas de " ++ nombre_varilla ++ "\""
            let area_real := (numero_entero : ℚ) * area_unitaria
            .ok (.dict refuerzo_propuesto (pyRound 1 area_acero)
              (pyRound 1 area_real) (pyRound 2 (area_real / area_acero)))

/-! ### Quantities as the specification spells them

The following `spec_` definitions transcribe the formulas the specification
(§4.2/§4.3) uses to describe the solver, to be compared with the code
definitions above. -/

/-- Spec: effective depth `d = totalDepth − cover`. -/
def spec_d (v : VigaRectangular) : ℚ := v.altura - RECUBRIMIENTO_PROMEDIO

/-- Spec: `a_limit = beta1 * 0.375 * d`. -/
def spec_a_limit (v : VigaRectangular) : ℚ := _calcular_beta1 v.fc * 0.375 * spec_d v

/-- Spec: `Cc_max = 0.85 * fc * b * a_limit`. -/
def spec_Cc_max (v : VigaRectangular) : ℚ := 0.85 * v.fc * v.base * spec_a_limit v

/-- Spec: `Mn_max = Cc_max * (d - a_limit/2)`. -/
def spec_Mn_max (v : VigaRectangular) : ℚ := spec_Cc_max v * (spec_d v - spec_a_limit v / 2)

/-- Spec: `Mu_max = phi * Cc_max * (d - a_limit/2)`. -/
def spec_Mu_max (v : VigaRectangular) : ℚ := PHI_FLEXION * spec_Cc_max v * (spec_d v - spec_a_limit v / 2)

/-- Spec: `c_limit = 0.375 * d`. -/
def spec_c_limit (v : VigaRectangular) : ℚ := 0.375 * spec_d v

/-- Spec: `fs' = min(0.003 * (c_limit - d')/c_limit * Es, fy)` with `d'` the
compression-steel cover (the code's `d_prima = RECUBRIMIENTO_PROMEDIO`). -/
def spec_fs_prima (v : VigaRectangular) : ℚ :=
  min (0.003 * (spec_c_limit v - RECUBRIMIENTO_PROMEDIO) / spec_c_limit v *
    MODULO_ELASTICIDAD_ACERO) v.fy

/-- Spec: `As' = (Mu/phi - Mn_max) / (fs' * (d - d'))`, `Mu` the converted
demand moment in N·mm. -/
def spec_As_prima (v : VigaRectangular) (mu_n_mm : ℚ) : ℚ :=
  (mu_n_mm / PHI_FLEXION - spec_Mn_max v) /
    (spec_fs_prima v * (spec_d v - RECUBRIMIENTO_PROMEDIO))

/-- Spec: `As_total = 0.85*fc*b*(beta1*c_limit)/fy + As' * (fs'/fy)`. -/
def spec_As_total (v : VigaRectangular) (mu_n_mm : ℚ) : ℚ :=
  0.85 * v.fc * v.base * (_calcular_beta1 v.fc * spec_c_limit v) / v.fy +
    spec_As_prima v mu_n_mm * (spec_fs_prima v / v.fy)

/-- Spec: `As_min = max(0.25*sqrt(fc)/fy, 1.4/fy) * b * d` (the minimum-steel
formula of §4.3, with both expressions). -/
noncomputable def spec_As_min (v : VigaRectangular) : ℝ :=
  max (0.25 * Real.sqrt (v.fc : ℝ) / (v.fy : ℝ)) (1.4 / (v.fy : ℝ)) *
    (v.base : ℝ) * ((spec_d v : ℚ) : ℝ)

/-! ### Claim theorems -/

/-- C5: `_calcular_beta1` equals 0.85 for `fc ≤ 28`, 0.65 for `fc ≥ 55`, and
`0.85 - 0.05*(fc-28)/7` strictly between; `beta1 28 = 0.85` and
`beta1 55 = 0.65` exactly, and `beta1 35` is within `1e-6` of `0.80`. -/
theorem claim_C5_beta1 :
    (∀ fc : ℚ, fc ≤ 28 → _calcular_beta1 fc = 0.85) ∧
    (∀ fc : ℚ, 55 ≤ fc → _calcular_beta1 fc = 0.65) ∧
    (∀ fc : ℚ, 28 < fc → fc < 55 → _calcular_beta1 fc = 0.85 - 0.05 * (fc - 28) / 7) ∧
    _calcular_beta1 28 = 0.85 ∧
    _calcular_beta1 55 = 0.65 ∧
    |_calcular_beta1 35 - 0.80| < 1 / 1000000 := by
  refine ⟨fun fc h => ?_, fun fc h => ?_, fun fc h1 h2 => ?_, ?_, ?_, ?_⟩ <;>
    unfold _calcular_beta1
  · rw [if_pos h]
  · rw [if_neg (by linarith), if_pos h]
  · rw [if_neg (by linarith), if_neg (by linarith)]
  · norm_num
  · norm_num
  · norm_num

/-- C5 witness: the first clause of `claim_C5_beta1` applied at `fc = 20`. -/
theorem claim_C5_beta1_witness : _calcular_beta1 20 = 0.85 :=
  claim_C5_beta1.1 20 (by norm_num)

/-- C7 counterexample: the constructor does not reject non-positive inputs.
Called with a width of `-30` cm it produces an object whose stored width is
`-300` mm (and converts the other fields as usual) instead of failing. -/
theorem claim_C7_contraejemplo :
    mkViga (-30) 60 210 4200 = ⟨-300, 600, 20.593965, 411.8793⟩ ∧
    (mkViga (-30) 60 210 4200).base < 0 := by
  constructor
  · unfold mkViga CM_A_MM KG_CM2_A_MPA
    rw [VigaRectangular.mk.injEq]
    norm_num
  · show (-30 : ℚ) * CM_A_MM < 0
    unfold CM_A_MM
    norm_num

/-- C7 amended: `__init__` performs no validation at all; for every input
(positive or not) it returns the object with the four unit conversions
applied, and this is its only behaviour. -/
theorem claim_C7_sin_validacion (base_cm altura_cm fc_kg_cm2 fy_kg_cm2 : ℚ) :
    mkViga base_cm altura_cm fc_kg_cm2 fy_kg_cm2 =
      ⟨base_cm * 10, altura_cm * 10, fc_kg_cm2 * 0.0980665, fy_kg_cm2 * 0.0980665⟩ :=
  rfl

/-- C7 witness: `claim_C7_sin_validacion` at the demo inputs (30, 60, 210,
4200). -/
theorem claim_C7_sin_validacion_witness :
    mkViga 30 60 210 4200 = ⟨30 * 10, 60 * 10, 210 * 0.0980665, 4200 * 0.0980665⟩ :=
  claim_C7_sin_validacion 30 60 210 4200

/-- C9 counterexample: for the strictly negative required area `-5` the packer
returns a successful (`exito = true`) "no reinforcement" result instead of
rejecting the input. -/
theorem claim_C9_contraejemplo :
    distribuir_acero 300 "3/4" (-5) =
      .ok ⟨true, "No requiere refuerzo", ⟨"3/4", 0, 0, "Ninguno", 0, none⟩⟩ := by
  unfold distribuir_acero
  rw [if_pos (by norm_num : (-5 : ℚ) ≤ 0)]

/-- C9 amended: a strictly negative required area is not rejected:
`distribuir_acero` handles it by the `target <= 0` early return, i.e. exactly
like a zero area, returning success with the empty layout. -/
theorem claim_C9_negativo_exito (base target : ℚ) (nombre_varilla : String)
    (h : target < 0) :
    distribuir_acero base nombre_varilla target =
      .ok ⟨true, "No requiere refuerzo", ⟨nombre_varilla, 0, 0, "Ninguno", 0, none⟩⟩ := by
  unfold distribuir_acero
  rw [if_pos h.le]

/-- C9 witness: `claim_C9_negativo_exito` at `base = 250`, bar `"1/2"`,
`target = -1`. -/
theorem claim_C9_negativo_exito_witness :
    (-1 : ℚ) < 0 ∧
    distribuir_acero 250 "1/2" (-1) =
      .ok ⟨true, "No requiere refuerzo", ⟨"1/2", 0, 0, "Ninguno", 0, none⟩⟩ :=
  ⟨by norm_num, claim_C9_negativo_exito 250 (-1) "1/2" (by norm_num)⟩

/-- C8 counterexample: the unknown-key error message carries only the invalid
key; it does not carry the list of valid keys (e.g. the valid key `"3/8"` does
not occur in it). -/
theorem claim_C8_contraejemplo :
    distribuir_acero 300 "7/8" 100 = .error "Varilla 7/8 no existe" ∧
    ¬ List.IsInfix "3/8".toList "Varilla 7/8 no existe".toList := by
  constructor
  · unfold distribuir_acero
    rw [if_neg (by norm_num : ¬ (100 : ℚ) ≤ 0)]
    rw [show VARILLAS_INFO "7/8" = none from by
      unfold VARILLAS_INFO
      rw [if_neg (by decide), if_neg (by decide), if_neg (by decide),
        if_neg (by decide), if_neg (by decide), if_neg (by decide)]]
    rfl
  · decide

/-- C8 amended: for a strictly positive required area and a key absent from
the catalog, `distribuir_acero` raises `ValueError` with the message
`"Varilla {key} no existe"`, which names the invalid key but not the list of
valid keys. -/
theorem claim_C8_error_clave (base target : ℚ) (nombre_varilla : String)
    (ht : 0 < target) (hn : VARILLAS_INFO nombre_varilla = none) :
    distribuir_acero base nombre_varilla target =
      .error ("Varilla " ++ nombre_varilla ++ " no existe") := by
  unfold distribuir_acero
  rw [if_neg (not_le.mpr ht), hn]

/-- C8 witness: `claim_C8_error_clave` at `base = 300`, key `"No. 18"`,
`target = 500`. -/
theorem claim_C8_error_clave_witness :
    (0 : ℚ) < 500 ∧ VARILLAS_INFO "No. 18" = none ∧
    distribuir_acero 300 "No. 18" 500 = .error ("Varilla " ++ "No. 18" ++ " no existe") := by
  have hn : VARILLAS_INFO "No. 18" = none := by
    unfold VARILLAS_INFO
    rw [if_neg (by decide), if_neg (by decide), if_neg (by decide),
      if_neg (by decide), if_neg (by decide), if_neg (by decide)]
  exact ⟨by norm_num, hn, claim_C8_error_clave 300 500 "No. 18" (by norm_num) hn⟩

/-- Every entry of the `VARILLAS_INFO` catalog has a strictly positive unit
area. -/
lemma varillas_info_pos (nombre : String) (info : InfoVarilla)
    (h : VARILLAS_INFO nombre = some info) : 0 < info.area := by
  unfold VARILLAS_INFO at h
  split_ifs at h
  all_goals injection h with h2
  all_goals subst h2
  all_goals norm_num

/-- C1: `calcular_as` takes the singly-reinforced branch exactly when the
converted demand is at most `Mu_max = phi * Cc_max * (d - a_limit/2)` (the
boundary inclusive), and the doubly-reinforced branch exactly when the demand
is strictly above it. -/
theorem claim_C1_seleccion_rama (v : VigaRectangular) (mu_ton_m : ℚ) :
    ((calcular_as v mu_ton_m).mensaje = "Diseño OK (Simplemente Reforzado)" ↔
      mu_ton_m * TON_M_A_N_MM ≤ spec_Mu_max v) ∧
    ((calcular_as v mu_ton_m).mensaje = "Diseño OK (Doblemente Reforzado)" ↔
      spec_Mu_max v < mu_ton_m * TON_M_A_N_MM) := by
  simp only [calcular_as]
  split_ifs with hsp
  · refine ⟨⟨fun _ => hsp.trans_eq ?_, fun _ => rfl⟩,
      ⟨fun hmsg => absurd
        (show ("Diseño OK (Simplemente Reforzado)" : String) =
          "Diseño OK (Doblemente Reforzado)" from hmsg) (by decide),
       fun hlt => absurd (hsp.trans_eq ?_) (not_le.mpr hlt)⟩⟩
    all_goals unfold spec_Mu_max spec_Cc_max spec_a_limit spec_d
    all_goals ring
  · refine ⟨⟨fun hmsg => absurd
        (show ("Diseño OK (Doblemente Reforzado)" : String) =
          "Diseño OK (Simplemente Reforzado)" from hmsg) (by decide),
      fun hle => absurd (hle.trans_eq ?_) hsp⟩,
      ⟨fun _ => lt_of_eq_of_lt ?_ (not_le.mp hsp), fun _ => rfl⟩⟩
    all_goals unfold spec_Mu_max spec_Cc_max spec_a_limit spec_d
    all_goals ring

/-- C1 witness: `claim_C1_seleccion_rama` at the demo section (30×60 cm,
210/4200 kg/cm²) under `Mu = 24` ton·m. -/
theorem claim_C1_seleccion_rama_witness :
    ((calcular_as (mkViga 30 60 210 4200) 24).mensaje =
        "Diseño OK (Simplemente Reforzado)" ↔
      24 * TON_M_A_N_MM ≤ spec_Mu_max (mkViga 30 60 210 4200)) ∧
    ((calcular_as (mkViga 30 60 210 4200) 24).mensaje =
        "Diseño OK (Doblemente Reforzado)" ↔
      spec_Mu_max (mkViga 30 60 210 4200) < 24 * TON_M_A_N_MM) :=
  claim_C1_seleccion_rama (mkViga 30 60 210 4200) 24

/-- C2: on the doubly-reinforced branch the result carries
`As' = (Mu/phi - Mn_max) / (fs' * (d - d'))` as compression steel and
`As_total = 0.85*fc*b*(beta1*c_limit)/fy + As' * (fs'/fy)` as tension steel,
with `fs' = min(0.003*(c_limit - d')/c_limit * Es, fy)`; in particular
`fs' ≤ fy`. -/
theorem claim_C2_doble_formulas (v : VigaRectangular) (mu_ton_m : ℚ)
    (h : spec_Mu_max v < mu_ton_m * TON_M_A_N_MM) :
    (calcular_as v mu_ton_m).area_acero_compresion =
      ((spec_As_prima v (mu_ton_m * TON_M_A_N_MM) : ℚ) : ℝ) ∧
    (calcular_as v mu_ton_m).area_acero_traccion =
      ((spec_As_total v (mu_ton_m * TON_M_A_N_MM) : ℚ) : ℝ) ∧
    spec_fs_prima v ≤ v.fy := by
  simp only [calcular_as]
  split_ifs with hsp
  · refine absurd (hsp.trans_eq ?_) (not_le.mpr h)
    unfold spec_Mu_max spec_Cc_max spec_a_limit spec_d
    ring
  · refine ⟨?_, ?_, min_le_right _ _⟩
    · dsimp only
      norm_cast
      unfold _calcular_doble spec_As_prima spec_fs_prima spec_Mn_max
        spec_Cc_max spec_a_limit spec_c_limit spec_d
      ring
    · dsimp only
      norm_cast
      unfold _calcular_doble spec_As_total spec_As_prima spec_fs_prima
        spec_Mn_max spec_Cc_max spec_a_limit spec_c_limit spec_d
      ring

/-- C3 amended: on the singly-reinforced branch the stored tension steel is
`max(iterated As, (0.25*sqrt(fc)/fy)*b*d)` — the code applies only the
`0.25*sqrt(fc)/fy` minimum expression, without the `1.4/fy` floor of the spec
— and the classification message is always the plain
"Diseño OK (Simplemente Reforzado)", never a minimum-governs tag. -/
theorem claim_C3_minimo_simplificado (v : VigaRectangular) (mu_ton_m : ℚ)
    (h : mu_ton_m * TON_M_A_N_MM ≤ spec_Mu_max v) :
    (calcular_as v mu_ton_m).area_acero_traccion =
      max ((_calcular_simple_iter v (mu_ton_m * TON_M_A_N_MM)
            (v.altura - RECUBRIMIENTO_PROMEDIO) PHI_FLEXION : ℚ) : ℝ)
        ((0.25 * Real.sqrt (v.fc : ℝ) / (v.fy : ℝ)) * (v.base : ℝ) *
          ((v.altura - RECUBRIMIENTO_PROMEDIO : ℚ) : ℝ)) ∧
    (calcular_as v mu_ton_m).mensaje = "Diseño OK (Simplemente Reforzado)" := by
  simp only [calcular_as]
  split_ifs with hsp
  · exact ⟨rfl, rfl⟩
  · refine absurd (h.trans_eq ?_) hsp
    unfold spec_Mu_max spec_Cc_max spec_a_limit spec_d
    ring

/-- C2 witness: `claim_C2_doble_formulas` at the demo section (30×60 cm,
210/4200 kg/cm²) under `Mu = 40` ton·m, which exceeds its `Mu_max`. -/
theorem claim_C2_doble_formulas_witness :
    spec_Mu_max (mkViga 30 60 210 4200) < 40 * TON_M_A_N_MM ∧
    ((calcular_as (mkViga 30 60 210 4200) 40).area_acero_compresion =
        ((spec_As_prima (mkViga 30 60 210 4200) (40 * TON_M_A_N_MM) : ℚ) : ℝ) ∧
      (calcular_as (mkViga 30 60 210 4200) 40).area_acero_traccion =
        ((spec_As_total (mkViga 30 60 210 4200) (40 * TON_M_A_N_MM) : ℚ) : ℝ) ∧
      spec_fs_prima (mkViga 30 60 210 4200) ≤ (mkViga 30 60 210 4200).fy) := by
  have h : spec_Mu_max (mkViga 30 60 210 4200) < 40 * TON_M_A_N_MM := by
    norm_num [spec_Mu_max, spec_Cc_max, spec_a_limit, spec_d, _calcular_beta1,
      mkViga, CM_A_MM, KG_CM2_A_MPA, PHI_FLEXION, RECUBRIMIENTO_PROMEDIO,
      TON_M_A_N_MM, TON_A_N, M_A_MM]
  exact ⟨h, claim_C2_doble_formulas (mkViga 30 60 210 4200) 40 h⟩

set_option maxRecDepth 8000 in
/-- C3 counterexample: for the section b=300, h=600 (mm), fc=25, fy=420 (MPa)
under zero demand the singly-reinforced branch runs with an iterated `As` of
`0`; the spec minimum `As_min = max(0.25*sqrt(25)/420, 1.4/420)*300*540` is
`540` mm², yet the stored tension steel is `3375/7 ≈ 482.14` mm² (only the
`0.25*sqrt(fc)` expression was applied), not `max(0, As_min) = 540`; and the
message carries no minimum-governs classification. -/
theorem claim_C3_contraejemplo :
    (calcular_as ⟨300, 600, 25, 420⟩ 0).mensaje = "Diseño OK (Simplemente Reforzado)" ∧
    _calcular_simple_iter ⟨300, 600, 25, 420⟩ (0 * TON_M_A_N_MM) 540 PHI_FLEXION = 0 ∧
    spec_As_min ⟨300, 600, 25, 420⟩ = 540 ∧
    (calcular_as ⟨300, 600, 25, 420⟩ 0).area_acero_traccion = 3375 / 7 ∧
    (3375 / 7 : ℝ) ≠ max ((0 : ℚ) : ℝ) (spec_As_min ⟨300, 600, 25, 420⟩) := by
  have hs : Real.sqrt ((25 : ℚ) : ℝ) = 5 := by
    rw [show ((25 : ℚ) : ℝ) = 5 ^ 2 by norm_num,
      Real.sqrt_sq (by norm_num : (0 : ℝ) ≤ 5)]
  have hs2 : Real.sqrt (25 : ℝ) = 5 := by
    rw [show (25 : ℝ) = 5 ^ 2 by norm_num,
      Real.sqrt_sq (by norm_num : (0 : ℝ) ≤ 5)]
  have hiter : _calcular_simple_iter ⟨300, 600, 25, 420⟩ (0 * TON_M_A_N_MM) 540
      PHI_FLEXION = 0 := by
    norm_num [_calcular_simple_iter, _calcular_simple_loop, PHI_FLEXION,
      TON_M_A_N_MM, TON_A_N, M_A_MM]
  have hmin : spec_As_min ⟨300, 600, 25, 420⟩ = 540 := by
    unfold spec_As_min spec_d RECUBRIMIENTO_PROMEDIO
    rw [hs, max_eq_right (by norm_num)]
    norm_num
  refine ⟨?_, hiter, hmin, ?_, ?_⟩
  · norm_num [calcular_as, _calcular_beta1, PHI_FLEXION, TON_M_A_N_MM, TON_A_N,
      M_A_MM, RECUBRIMIENTO_PROMEDIO]
  · norm_num [calcular_as, _calcular_simple, _calcular_simple_iter,
      _calcular_simple_loop, _calcular_beta1, PHI_FLEXION, TON_M_A_N_MM,
      TON_A_N, M_A_MM, RECUBRIMIENTO_PROMEDIO, hs, hs2]
  · rw [hmin]
    rw [show ((0 : ℚ) : ℝ) = 0 by norm_num, max_eq_right (by norm_num)]
    norm_num

/-- C3 witness: `claim_C3_minimo_simplificado` at the section b=300, h=600,
fc=25, fy=420 under zero demand (which lies on the singly-reinforced
branch). -/
theorem claim_C3_minimo_simplificado_witness :
    (0 : ℚ) * TON_M_A_N_MM ≤ spec_Mu_max ⟨300, 600, 25, 420⟩ ∧
    ((calcular_as ⟨300, 600, 25, 420⟩ 0).area_acero_traccion =
      max ((_calcular_simple_iter ⟨300, 600, 25, 420⟩ ((0 : ℚ) * TON_M_A_N_MM)
            ((⟨300, 600, 25, 420⟩ : VigaRectangular).altura - RECUBRIMIENTO_PROMEDIO)
            PHI_FLEXION : ℚ) : ℝ)
        ((0.25 * Real.sqrt (((⟨300, 600, 25, 420⟩ : VigaRectangular).fc : ℚ) : ℝ) /
            (((⟨300, 600, 25, 420⟩ : VigaRectangular).fy : ℚ) : ℝ)) *
          (((⟨300, 600, 25, 420⟩ : VigaRectangular).base : ℚ) : ℝ) *
          (((⟨300, 600, 25, 420⟩ : VigaRectangular).altura - RECUBRIMIENTO_PROMEDIO : ℚ) : ℝ)) ∧
      (calcular_as ⟨300, 600, 25, 420⟩ 0).mensaje = "Diseño OK (Simplemente Reforzado)") := by
  have h : (0 : ℚ) * TON_M_A_N_MM ≤ spec_Mu_max ⟨300, 600, 25, 420⟩ := by
    norm_num [spec_Mu_max, spec_Cc_max, spec_a_limit, spec_d, _calcular_beta1,
      PHI_FLEXION, RECUBRIMIENTO_PROMEDIO, TON_M_A_N_MM, TON_A_N, M_A_MM]
  exact ⟨h, claim_C3_minimo_simplificado ⟨300, 600, 25, 420⟩ 0 h⟩

/-- C4: at the failing input — section b=300, h=600 (mm), fc=1, fy=420 (MPa),
demand `Mu = 2` ton·m, which lies strictly above `Mu_max` — the
doubly-reinforced branch returns a tension steel area strictly below
`As_min = max(0.25*sqrt(fc)/fy, 1.4/fy)*b*d = 540` mm²: no minimum-steel
check is applied after that branch, against the claim. -/
theorem claim_C4_doble_sin_minimo :
    spec_Mu_max ⟨300, 600, 1, 420⟩ < 2 * TON_M_A_N_MM ∧
    (calcular_as ⟨300, 600, 1, 420⟩ 2).mensaje = "Diseño OK (Doblemente Reforzado)" ∧
    spec_As_min ⟨300, 600, 1, 420⟩ = 540 ∧
    (calcular_as ⟨300, 600, 1, 420⟩ 2).area_acero_traccion <
      spec_As_min ⟨300, 600, 1, 420⟩ := by
  have hs : Real.sqrt ((1 : ℚ) : ℝ) = 1 := by
    rw [show ((1 : ℚ) : ℝ) = 1 by norm_num, Real.sqrt_one]
  have hmin : spec_As_min ⟨300, 600, 1, 420⟩ = 540 := by
    unfold spec_As_min spec_d RECUBRIMIENTO_PROMEDIO
    rw [hs, max_eq_right (by norm_num)]
    norm_num
  refine ⟨?_, ?_, hmin, ?_⟩
  · norm_num [spec_Mu_max, spec_Cc_max, spec_a_limit, spec_d, _calcular_beta1,
      PHI_FLEXION, RECUBRIMIENTO_PROMEDIO, TON_M_A_N_MM, TON_A_N, M_A_MM]
  · norm_num [calcular_as, _calcular_beta1, PHI_FLEXION, TON_M_A_N_MM, TON_A_N,
      M_A_MM, RECUBRIMIENTO_PROMEDIO]
  · rw [hmin]
    norm_num [calcular_as, _calcular_doble, min_def, _calcular_beta1,
      PHI_FLEXION, TON_M_A_N_MM, TON_A_N, M_A_MM, RECUBRIMIENTO_PROMEDIO,
      MODULO_ELASTICIDAD_ACERO]

/-- C6: for a strictly positive required area and a catalog bar, the packer
returns (without exception) a response whose `cantidad` is
`ceil(target/barUnitArea)` and whose `area_real` is `cantidad * barUnitArea`,
in every outcome, and every successful outcome provides at least the
requested area. -/
theorem claim_C6_area_real (base target : ℚ) (nombre_varilla : String)
    (info : InfoVarilla) (ht : 0 < target)
    (hn : VARILLAS_INFO nombre_varilla = some info) :
    ∃ r : Respuesta, distribuir_acero base nombre_varilla target = .ok r ∧
      r.resultado.cantidad = ⌈target / info.area⌉ ∧
      r.resultado.area_real = (⌈target / info.area⌉ : ℚ) * info.area ∧
      (r.exito = true → target ≤ r.resultado.area_real) := by
  have hpos : 0 < info.area := varillas_info_pos _ _ hn
  have hle : target ≤ (⌈target / info.area⌉ : ℚ) * info.area := by
    have h1 : target / info.area ≤ ((⌈target / info.area⌉ : ℤ) : ℚ) :=
      Int.le_ceil _
    have h2 := mul_le_mul_of_nonneg_right h1 hpos.le
    rwa [div_mul_cancel₀ _ hpos.ne'] at h2
  unfold distribuir_acero
  rw [if_neg (not_le.mpr ht), hn]
  dsimp only
  split_ifs with h1 h2 h3
  · exact ⟨_, rfl, rfl, rfl, fun hx => absurd hx Bool.false_ne_true⟩
  · exact ⟨_, rfl, rfl, rfl, fun _ => hle⟩
  · exact ⟨_, rfl, rfl, rfl, fun hx => absurd hx Bool.false_ne_true⟩
  · exact ⟨_, rfl, rfl, rfl, fun _ => hle⟩

/-- C6 witness: `claim_C6_area_real` at `base = 300` mm, bar `"3/4"`,
`target = 1000` mm². -/
theorem claim_C6_area_real_witness :
    (0 : ℚ) < 1000 ∧ VARILLAS_INFO "3/4" = some ⟨284, 19.1⟩ ∧
    (∃ r : Respuesta, distribuir_acero 300 "3/4" 1000 = .ok r ∧
      r.resultado.cantidad = ⌈(1000 : ℚ) / (⟨284, 19.1⟩ : InfoVarilla).area⌉ ∧
      r.resultado.area_real =
        (⌈(1000 : ℚ) / (⟨284, 19.1⟩ : InfoVarilla).area⌉ : ℚ) *
          (⟨284, 19.1⟩ : InfoVarilla).area ∧
      (r.exito = true → (1000 : ℚ) ≤ r.resultado.area_real)) := by
  have hn : VARILLAS_INFO "3/4" = some ⟨284, 19.1⟩ := by
    unfold VARILLAS_INFO
    rw [if_neg (by decide), if_neg (by decide), if_neg (by decide), if_pos rfl]
  exact ⟨by norm_num, hn,
    claim_C6_area_real 300 1000 "3/4" ⟨284, 19.1⟩ (by norm_num) hn⟩

/-- C10: whenever the stored steel area is nonzero, `seleccionar_varillas`
hits the read of the undefined module attribute `VARILLAS_ESTANDAR` and
raises `AttributeError` for every bar name; it returns normally only when the
stored area is `0.0`, and then it returns the error string, not the result
dictionary. -/
theorem claim_C10_atributo (area_acero : ℚ) (nombre_varilla : String) :
    (area_acero ≠ 0 →
      seleccionar_varillas area_acero nombre_varilla =
        .error "AttributeError: module constantes has no attribute VARILLAS_ESTANDAR") ∧
    (area_acero = 0 →
      seleccionar_varillas area_acero nombre_varilla =
        .ok (.errStr "Error: Primero debes calcular el As (ejecuta calcular_as)")) := by
  constructor
  · intro h
    unfold seleccionar_varillas
    rw [if_neg h]
    rfl
  · intro h
    unfold seleccionar_varillas
    rw [if_pos h]

/-- C10 witness: `claim_C10_atributo` at stored area `482` mm² (nonzero) with
bar `"3/4"`, and at stored area `0`. -/
theorem claim_C10_atributo_witness :
    ((482 : ℚ) ≠ 0 ∧
      seleccionar_varillas 482 "3/4" =
        .error "AttributeError: module constantes has no attribute VARILLAS_ESTANDAR") ∧
    ((0 : ℚ) = 0 ∧
      seleccionar_varillas 0 "3/4" =
        .ok (.errStr "Error: Primero debes calcular el As (ejecuta calcular_as)")) :=
  ⟨⟨by norm_num, (claim_C10_atributo 482 "3/4").1 (by norm_num)⟩,
   ⟨rfl, (claim_C10_atributo 0 "3/4").2 rfl⟩⟩

end Estructural
